import Mathlib

/-!
Shallow embedding of `src/my_lib.rs` (a wgpu triangle renderer).

The embedding models the renderer's observable state (the stored
`SurfaceConfiguration`, the stored physical size, the vertex-buffer
contents and vertex count) and the GPU commands each operation issues,
as a trace.  GPU handles (surface, device, queue, pipeline) carry no
state the claims depend on, so calls against them appear in the trace
rather than in the state.  `f32`/`f64` literals in the source are exact
decimal fractions, embedded as rationals.  A Rust `panic!`/`expect`
abort is modelled by the `RunResult.crash` constructor.
-/

/-- `winit::dpi::PhysicalSize<u32>`: width and height in physical pixels. -/
structure PhysicalSize where
  width : Nat
  height : Nat
deriving DecidableEq, Repr

/-- A `wgpu::TextureFormat` abstracted to what the source inspects:
an identity and whether the format is sRGB-encoded (`is_srgb`). -/
structure TextureFormat where
  id : Nat
  srgb : Bool
deriving DecidableEq, Repr

def TextureFormat.is_srgb (f : TextureFormat) : Bool := f.srgb

/-- `wgpu::PresentMode`; the source only ever uses `Fifo`. -/
inductive PresentMode where
  | Fifo
  | Immediate
  | Mailbox
deriving DecidableEq, Repr

/-- `wgpu::CompositeAlphaMode`. -/
inductive CompositeAlphaMode where
  | Auto
  | Opaque
  | PreMultiplied
  | PostMultiplied
  | Inherit
deriving DecidableEq, Repr

/-- `wgpu::TextureUsages`; the source only uses `RENDER_ATTACHMENT`. -/
inductive TextureUsages where
  | RENDER_ATTACHMENT
deriving DecidableEq, Repr

/-- `wgpu::SurfaceConfiguration` with the fields the source sets. -/
structure SurfaceConfiguration where
  usage : TextureUsages
  format : TextureFormat
  width : Nat
  height : Nat
  present_mode : PresentMode
  alpha_mode : CompositeAlphaMode
  view_formats : List TextureFormat
  desired_maximum_frame_latency : Nat
deriving DecidableEq, Repr

/-- `wgpu::SurfaceCapabilities` as consumed by `new_async`:
the adapter's reported formats and alpha modes. -/
structure SurfaceCapabilities where
  formats : List TextureFormat
  alpha_modes : List CompositeAlphaMode
deriving DecidableEq, Repr

/-- A host-side vertex: `{ position: [f32; 3], color: [f32; 3] }`.
The source's `f32` literals are exact, so components are rationals. -/
structure Vertex where
  position : Rat × Rat × Rat
  color : Rat × Rat × Rat
deriving DecidableEq, Repr

/-- The `f32` literal `0.5` as an exact rational. -/
def ratHalf : Rat := ⟨1, 2, by decide, by decide⟩

/-- The `f32` literal `-0.5` as an exact rational. -/
def ratNegHalf : Rat := ⟨-1, 2, by decide, by decide⟩

/-- The `f64` literal `0.1` as an exact rational. -/
def ratTenth : Rat := ⟨1, 10, by decide, by decide⟩

/-- The `f64` literal `0.2` as an exact rational (2/10 reduced). -/
def ratFifth : Rat := ⟨1, 5, by decide, by decide⟩

/-- The `f64` literal `0.3` as an exact rational. -/
def ratThreeTenths : Rat := ⟨3, 10, by decide, by decide⟩

/-- The compile-time constant `VERTICES`: the triangle's three vertices. -/
def VERTICES : List Vertex :=
  [ { position := (0, ratHalf, 0), color := (1, 0, 0) },
    { position := (ratNegHalf, ratNegHalf, 0), color := (0, 1, 0) },
    { position := (ratHalf, ratNegHalf, 0), color := (0, 0, 1) } ]

/-- `wgpu::Color` (f64 fields; the source's literals are exact decimals). -/
structure Color where
  r : Rat
  g : Rat
  b : Rat
  a : Rat
deriving DecidableEq, Repr

/-- `wgpu::LoadOp` for a color attachment. -/
inductive LoadOp where
  | clear (c : Color)
  | load
deriving DecidableEq, Repr

/-- `wgpu::StoreOp` for a color attachment. -/
inductive StoreOp where
  | store
  | discard
deriving DecidableEq, Repr

/-- `wgpu::SurfaceError`: the error type of `Surface::get_current_texture`. -/
inductive SurfaceError where
  | Timeout
  | Outdated
  | Lost
  | OutOfMemory
deriving DecidableEq, Repr

/-- One GPU-facing call the renderer issues, recorded in order. -/
inductive GpuCommand where
  | configureSurface (config : SurfaceConfiguration)
  | getCurrentTexture
  | createView
  | createCommandEncoder
  | beginRenderPass (ld : LoadOp) (sto : StoreOp)
  | setPipeline
  | setVertexBuffer (slot : Nat)
  | setIndexBuffer
  | draw (vertices : Nat × Nat) (instances : Nat × Nat)
  | endRenderPass
  | submit (buffers : Nat)
  | present
deriving DecidableEq, Repr

/-- Result of running a Rust function that may `panic!`/`expect`-abort:
`crash` is an abort of the process, `ret` a normal return. -/
inductive RunResult (α : Type) where
  | crash
  | ret (a : α)
deriving DecidableEq, Repr

/-- The renderer state `State` from the source; GPU handles carry no
claim-relevant state and are omitted, calls on them appear in traces. -/
structure State where
  config : SurfaceConfiguration
  size : PhysicalSize
  vertex_buffer : List Vertex
  num_vertices : Nat
deriving DecidableEq, Repr

/-- `State::new_vertex_buffer`: `create_buffer_init` with
`contents = bytemuck::cast_slice(VERTICES)`, so the buffer's contents
are exactly the host-side `VERTICES`. -/
def new_vertex_buffer : List Vertex := VERTICES

/-- The surface-format choice in `new_async`:
`surface_caps.formats.iter().find(|f| f.is_srgb()).copied()
  .unwrap_or(surface_caps.formats[0])`.
`none` models the index panic on an empty format list. -/
def chooseSurfaceFormat (formats : List TextureFormat) : Option TextureFormat :=
  match formats.find? (fun f => f.is_srgb) with
  | some f => some f
  | none => formats.head?

/-- `State::new_async` restricted to its claim-relevant effect: build the
initial `SurfaceConfiguration` from the window size and the surface
capabilities, and the initial state.  `none` models the construction
panics (`formats[0]` / `alpha_modes[0]` on an empty capability list). -/
def new_async (size : PhysicalSize) (caps : SurfaceCapabilities) : Option State :=
  match chooseSurfaceFormat caps.formats, caps.alpha_modes.head? with
  | some surface_format, some alpha0 =>
    some
      { config :=
          { usage := TextureUsages.RENDER_ATTACHMENT
            format := surface_format
            width := size.width
            height := size.height
            present_mode := PresentMode.Fifo
            alpha_mode := alpha0
            view_formats := []
            desired_maximum_frame_latency := 2 }
        size := size
        vertex_buffer := new_vertex_buffer
        num_vertices := VERTICES.length }
  | _, _ => none

/-- `State::resize`: if both dimensions are positive, store the new size,
update the config's width/height and configure the surface; otherwise do
nothing.  Returns the new state and the GPU calls issued. -/
def resize (s : State) (new_size : PhysicalSize) : State × List GpuCommand :=
  if new_size.width > 0 ∧ new_size.height > 0 then
    let config :=
      { s.config with width := new_size.width, height := new_size.height }
    ({ s with size := new_size, config := config },
      [GpuCommand.configureSurface config])
  else
    (s, [])

/-- The clear color of the render pass: `Color { r: 0.1, g: 0.2, b: 0.3, a: 1.0 }`. -/
def clearColor : Color :=
  { r := ratTenth, g := ratFifth, b := ratThreeTenths, a := 1 }

/-- The GPU calls a `render` with a successfully acquired texture issues,
in source order: acquire, view creation, encoder creation, one render
pass (clear/store) binding the pipeline and the vertex buffer at slot 0
with one draw of `0..num_vertices` vertices and `0..1` instances,
one submit, one present. -/
def renderTrace (s : State) : List GpuCommand :=
  [ GpuCommand.getCurrentTexture
  , GpuCommand.createView
  , GpuCommand.createCommandEncoder
  , GpuCommand.beginRenderPass (LoadOp.clear clearColor) StoreOp.store
  , GpuCommand.setPipeline
  , GpuCommand.setVertexBuffer 0
  , GpuCommand.draw (0, s.num_vertices) (0, 1)
  , GpuCommand.endRenderPass
  , GpuCommand.submit 1
  , GpuCommand.present ]

instance : DecidableEq (Except SurfaceError Unit) := fun a b =>
  match a, b with
  | Except.ok (), Except.ok () => isTrue rfl
  | Except.error e, Except.error f =>
    match decEq e f with
    | isTrue h => isTrue (by rw [h])
    | isFalse h => isFalse (fun hh => h (by injection hh))
  | Except.ok _, Except.error _ => isFalse (fun h => Except.noConfusion h)
  | Except.error _, Except.ok _ => isFalse (fun h => Except.noConfusion h)

/-- What a `render` call returns on a normal (non-aborting) return:
the trace of GPU calls made and the `Result<(), wgpu::SurfaceError>`. -/
structure RenderResult where
  trace : List GpuCommand
  result : Except SurfaceError Unit
deriving DecidableEq, Repr

/-- `State::render`.  `acq` is the outcome the surface reports for
`get_current_texture()`.  On an acquisition error the source runs
`.expect("Failed to acquire texture")`, i.e. aborts: `RunResult.crash`.
Otherwise it records and submits the fixed frame and returns `Ok(())`.
`render` never assigns to any field of `self`, so the post-state is the
pre-state. -/
def render (s : State) (acq : Except SurfaceError Unit) :
    State × RunResult RenderResult :=
  match acq with
  | Except.error _ => (s, RunResult.crash)
  | Except.ok _ =>
    (s, RunResult.ret { trace := renderTrace s, result := Except.ok () })

/-- Number of draw calls in a trace. -/
def countDraws (l : List GpuCommand) : Nat :=
  l.countP (fun c => match c with
    | GpuCommand.draw _ _ => true
    | _ => false)

/-- Number of index-buffer bindings in a trace. -/
def countIndexBufferBinds (l : List GpuCommand) : Nat :=
  l.countP (fun c => match c with
    | GpuCommand.setIndexBuffer => true
    | _ => false)

/-- The render passes opened in a trace, with their load/store ops. -/
def renderPasses (l : List GpuCommand) : List GpuCommand :=
  l.filter (fun c => match c with
    | GpuCommand.beginRenderPass _ _ => true
    | _ => false)

/-- The spec's size/config width-height invariant. -/
def sizeConfigInv (s : State) : Prop :=
  s.config.width = s.size.width ∧ s.config.height = s.size.height

instance : DecidablePred sizeConfigInv := fun s => by
  unfold sizeConfigInv
  infer_instance

/-- States reachable through the public API: constructed by `new_async`
and closed under `resize` and `render`. -/
inductive Reachable : State → Prop where
  | init (size : PhysicalSize) (caps : SurfaceCapabilities) (s : State) :
      new_async size caps = some s → Reachable s
  | resize_step (s : State) (sz : PhysicalSize) :
      Reachable s → Reachable (resize s sz).1
  | render_step (s : State) (acq : Except SurfaceError Unit) :
      Reachable s → Reachable (render s acq).1

/-- Concrete capabilities used for witnesses: a non-sRGB format, an sRGB
format, one alpha mode. -/
def exampleCaps : SurfaceCapabilities :=
  { formats := [{ id := 0, srgb := false }, { id := 1, srgb := true }]
    alpha_modes := [CompositeAlphaMode.Auto] }

/-- The state `new_async` builds at 800×600 with `exampleCaps`. -/
def exampleState : State :=
  { config :=
      { usage := TextureUsages.RENDER_ATTACHMENT
        format := { id := 1, srgb := true }
        width := 800
        height := 600
        present_mode := PresentMode.Fifo
        alpha_mode := CompositeAlphaMode.Auto
        view_formats := []
        desired_maximum_frame_latency := 2 }
    size := { width := 800, height := 600 }
    vertex_buffer := VERTICES
    num_vertices := 3 }

/-- Running a sequence of `render` calls, one per acquisition outcome. -/
def renderSeq (s : State) : List (Except SurfaceError Unit) → State
  | [] => s
  | a :: rest => renderSeq (render s a).1 rest

/-- The GPU calls a `render` call issues (empty when the call aborts). -/
def traceOf (s : State) (acq : Except SurfaceError Unit) : List GpuCommand :=
  match (render s acq).2 with
  | RunResult.crash => []
  | RunResult.ret r => r.trace

theorem new_async_example :
    new_async { width := 800, height := 600 } exampleCaps =
      some exampleState := by
  decide

theorem render_fst (s : State) (acq : Except SurfaceError Unit) :
    (render s acq).1 = s := by
  cases acq <;> rfl

theorem renderSeq_eq (acqs : List (Except SurfaceError Unit)) (s : State) :
    renderSeq s acqs = s := by
  induction acqs generalizing s with
  | nil => rfl
  | cons a rest ih => rw [renderSeq, render_fst, ih]

theorem resize_fst_num_vertices (s : State) (sz : PhysicalSize) :
    (resize s sz).1.num_vertices = s.num_vertices ∧
    (resize s sz).1.vertex_buffer = s.vertex_buffer := by
  unfold resize
  split <;> exact ⟨rfl, rfl⟩

theorem new_async_frame (size : PhysicalSize) (caps : SurfaceCapabilities)
    (s : State) (h : new_async size caps = some s) :
    s.num_vertices = 3 ∧ s.vertex_buffer = VERTICES := by
  unfold new_async at h
  split at h
  · cases h
    exact ⟨rfl, rfl⟩
  · cases h

theorem reachable_frame (s : State) (h : Reachable s) :
    s.num_vertices = 3 ∧ s.vertex_buffer = VERTICES := by
  induction h with
  | init size caps s h => exact new_async_frame size caps s h
  | resize_step s sz _ ih =>
    obtain ⟨h1, h2⟩ := resize_fst_num_vertices s sz
    exact ⟨h1.trans ih.1, h2.trans ih.2⟩
  | render_step s acq _ ih =>
    rw [render_fst]
    exact ih

/-- C1: the claim says that when texture acquisition reports the surface
lost/outdated/timed out, `render()` reconfigures with the current size,
retries acquisition once, and on a second failure returns a recoverable
error with the state still `Configured`.  The code instead aborts at once:
`get_current_texture().expect("Failed to acquire texture")` panics on the
first failure, issuing no reconfigure and no retry.  This theorem
evaluates the code at the failing input: acquisition reporting
`Outdated` makes `render` crash the process. -/
theorem C1_render_aborts_on_failed_acquire :
    render exampleState (Except.error SurfaceError.Outdated) =
      (exampleState, RunResult.crash) := rfl

/-- C2, counterexample: after `resize` to width 0 (an input the claim
calls leaving the `Configured` state), a `render` call still performs
GPU work — its trace is nonempty and contains a draw call — refuting
"performs no GPU work". -/
theorem C2_counterexample_render_after_zero_resize_draws :
    traceOf (resize exampleState { width := 0, height := 600 }).1
        (Except.ok ()) ≠ [] ∧
    countDraws (traceOf (resize exampleState { width := 0, height := 600 }).1
        (Except.ok ())) = 1 := by
  decide

/-- C2, amended: a zero-dimension `resize` leaves the state unchanged,
and the code has no skip state: a subsequent `render` whose acquisition
succeeds performs the full GPU command sequence — nonempty, with exactly
one draw — and returns `Ok(())`, exactly as in any other frame. -/
theorem C2_amended_no_skip_state (s : State) (sz : PhysicalSize)
    (h : sz.width = 0 ∨ sz.height = 0) :
    (resize s sz).1 = s ∧
    (render s (Except.ok ())).2 =
      RunResult.ret { trace := renderTrace s, result := Except.ok () } ∧
    renderTrace s ≠ [] ∧
    countDraws (renderTrace s) = 1 := by
  refine ⟨?_, rfl, ?_, ?_⟩
  · unfold resize
    rcases h with h | h <;> simp [h]
  · simp [renderTrace]
  · rfl

/-- C2 witness: the amended statement at the concrete zero-width resize. -/
theorem C2_amended_witness :
    ((0 : Nat) = 0 ∨ (600 : Nat) = 0) ∧
    ((resize exampleState { width := 0, height := 600 }).1 = exampleState ∧
     (render exampleState (Except.ok ())).2 =
       RunResult.ret
         { trace := renderTrace exampleState, result := Except.ok () } ∧
     renderTrace exampleState ≠ [] ∧
     countDraws (renderTrace exampleState) = 1) :=
  ⟨Or.inl rfl,
    C2_amended_no_skip_state exampleState { width := 0, height := 600 }
      (Or.inl rfl)⟩

/-- C3: for positive `w` and `h`, `resize` stores `w`/`h` in the
configuration's width/height, stores the new size, and issues exactly
one surface (re)configuration against the device with that
configuration. -/
theorem C3_resize_valid_updates (s : State) (w h : Nat)
    (hw : 0 < w) (hh : 0 < h) :
    (resize s { width := w, height := h }).1.config.width = w ∧
    (resize s { width := w, height := h }).1.config.height = h ∧
    (resize s { width := w, height := h }).1.size =
      { width := w, height := h } ∧
    (resize s { width := w, height := h }).2 =
      [GpuCommand.configureSurface
        (resize s { width := w, height := h }).1.config] := by
  unfold resize
  simp [hw, hh]

/-- C3 witness: `resize` to 1024×768 from the example state. -/
theorem C3_resize_valid_witness :
    (0 < 1024 ∧ 0 < 768) ∧
    ((resize exampleState { width := 1024, height := 768 }).1.config.width =
       1024 ∧
     (resize exampleState { width := 1024, height := 768 }).1.config.height =
       768 ∧
     (resize exampleState { width := 1024, height := 768 }).1.size =
       { width := 1024, height := 768 } ∧
     (resize exampleState { width := 1024, height := 768 }).2 =
       [GpuCommand.configureSurface
         (resize exampleState { width := 1024, height := 768 }).1.config]) :=
  ⟨⟨by decide, by decide⟩,
    C3_resize_valid_updates exampleState 1024 768 (by decide) (by decide)⟩

/-- C4: a `resize` in which either dimension is zero returns the state
unchanged — prior configuration and size untouched — and issues no GPU
call, in particular no surface configuration. -/
theorem C4_resize_zero_is_noop (s : State) (sz : PhysicalSize)
    (h : sz.width = 0 ∨ sz.height = 0) :
    resize s sz = (s, []) := by
  unfold resize
  rcases h with h | h <;> simp [h]

/-- C4 witness: `resize` to 800×0 from the example state. -/
theorem C4_resize_zero_witness :
    ((800 : Nat) = 0 ∨ (0 : Nat) = 0) ∧
    resize exampleState { width := 800, height := 0 } = (exampleState, []) :=
  ⟨Or.inr rfl,
    C4_resize_zero_is_noop exampleState { width := 800, height := 0 }
      (Or.inr rfl)⟩

/-- C5: the invariant `config.width == size.width && config.height ==
size.height` holds for every state `new_async` constructs, is preserved
by every `resize` (atomically: both fields are updated together or
neither is), and is preserved by every `render` (which never writes the
state). -/
theorem C5_size_config_invariant :
    (∀ (size : PhysicalSize) (caps : SurfaceCapabilities) (s : State),
      new_async size caps = some s → sizeConfigInv s) ∧
    (∀ (s : State) (sz : PhysicalSize),
      sizeConfigInv s → sizeConfigInv (resize s sz).1) ∧
    (∀ (s : State) (acq : Except SurfaceError Unit),
      sizeConfigInv s → sizeConfigInv (render s acq).1) := by
  refine ⟨?_, ?_, ?_⟩
  · intro size caps s h
    unfold new_async at h
    split at h
    · cases h
      exact ⟨rfl, rfl⟩
    · cases h
  · intro s sz _
    unfold resize
    split
    · exact ⟨rfl, rfl⟩
    · assumption
  · intro s acq h
    rw [render_fst]
    exact h

/-- C5 witness: the invariant at the concretely constructed state. -/
theorem C5_size_config_invariant_witness :
    new_async { width := 800, height := 600 } exampleCaps =
      some exampleState ∧
    sizeConfigInv exampleState :=
  ⟨by decide,
    C5_size_config_invariant.1 { width := 800, height := 600 } exampleCaps
      exampleState (by decide)⟩

/-- C6: from any reachable state, a `render` whose acquisition succeeds
returns normally with the fixed trace, and that trace has exactly one
draw call, covering vertices `0..3` and instances `0..1`, and binds no
index buffer. -/
theorem C6_exactly_one_draw (s : State) (h : Reachable s) :
    (render s (Except.ok ())).2 =
      RunResult.ret { trace := renderTrace s, result := Except.ok () } ∧
    countDraws (renderTrace s) = 1 ∧
    GpuCommand.draw (0, 3) (0, 1) ∈ renderTrace s ∧
    countIndexBufferBinds (renderTrace s) = 0 := by
  obtain ⟨hn, -⟩ := reachable_frame s h
  refine ⟨rfl, rfl, ?_, rfl⟩
  simp [renderTrace, hn]

/-- C6 witness: one draw of 3 vertices, 1 instance at the example state. -/
theorem C6_exactly_one_draw_witness :
    Reachable exampleState ∧
    ((render exampleState (Except.ok ())).2 =
       RunResult.ret
         { trace := renderTrace exampleState, result := Except.ok () } ∧
     countDraws (renderTrace exampleState) = 1 ∧
     GpuCommand.draw (0, 3) (0, 1) ∈ renderTrace exampleState ∧
     countIndexBufferBinds (renderTrace exampleState) = 0) :=
  have hr : Reachable exampleState :=
    Reachable.init { width := 800, height := 600 } exampleCaps exampleState
      (by decide)
  ⟨hr, C6_exactly_one_draw exampleState hr⟩

/-- C7: every `render` whose acquisition succeeds opens exactly one
render pass, with load-op clear and store-op store, and the clear color
is exactly r = 1/10, g = 2/10, b = 3/10, a = 1 — the same on every call
and from every state. -/
theorem C7_clear_color_fixed (s : State) :
    (render s (Except.ok ())).2 =
      RunResult.ret { trace := renderTrace s, result := Except.ok () } ∧
    renderPasses (renderTrace s) =
      [GpuCommand.beginRenderPass (LoadOp.clear clearColor) StoreOp.store] ∧
    clearColor.r.num = 1 ∧ clearColor.r.den = 10 ∧
    clearColor.g.num = 1 ∧ clearColor.g.den = 5 ∧
    clearColor.b.num = 3 ∧ clearColor.b.den = 10 ∧
    clearColor.a.num = 1 ∧ clearColor.a.den = 1 := by
  exact ⟨rfl, rfl, rfl, rfl, rfl, rfl, rfl, rfl, rfl, rfl⟩

/-- C8: the vertex buffer is created holding exactly the three fixed
vertices — positions (0, 1/2, 0), (-1/2, -1/2, 0), (1/2, -1/2, 0) and
colors (1,0,0), (0,1,0), (0,0,1) — and no sequence of `render` calls,
whatever each acquisition reports, changes the buffer contents. -/
theorem C8_vertex_buffer_fixed :
    new_vertex_buffer.length = 3 ∧
    new_vertex_buffer.map Vertex.position =
      [(0, ratHalf, 0), (ratNegHalf, ratNegHalf, 0),
        (ratHalf, ratNegHalf, 0)] ∧
    new_vertex_buffer.map Vertex.color =
      [(1, 0, 0), (0, 1, 0), (0, 0, 1)] ∧
    ratHalf.num = 1 ∧ ratHalf.den = 2 ∧
    ratNegHalf.num = -1 ∧ ratNegHalf.den = 2 ∧
    ∀ (s : State) (acqs : List (Except SurfaceError Unit)),
      (renderSeq s acqs).vertex_buffer = s.vertex_buffer := by
  refine ⟨rfl, rfl, rfl, rfl, rfl, rfl, rfl, ?_⟩
  intro s acqs
  rw [renderSeq_eq]

/-- C9: the chosen surface format is the first sRGB format when the
capability list contains one — in particular it is sRGB-encoded — and
otherwise the list's first format; the choice is a function of the
list alone. -/
theorem C9_surface_format_choice (formats : List TextureFormat)
    (h : formats ≠ []) :
    ∃ f, chooseSurfaceFormat formats = some f ∧ f ∈ formats ∧
      ((∃ g ∈ formats, g.is_srgb) → f.is_srgb) ∧
      ((∀ g ∈ formats, ¬ g.is_srgb) → formats.head? = some f) := by
  unfold chooseSurfaceFormat
  cases hfind : formats.find? (fun f => f.is_srgb) with
  | some f =>
    refine ⟨f, rfl, List.mem_of_find?_eq_some hfind, ?_, ?_⟩
    · intro _
      exact List.find?_some hfind
    · intro hall
      exact absurd (by simpa using List.find?_some hfind)
        (hall f (List.mem_of_find?_eq_some hfind))
  | none =>
    cases formats with
    | nil => exact absurd rfl h
    | cons a as =>
      refine ⟨a, rfl, List.mem_cons_self a as, ?_, fun _ => rfl⟩
      intro ⟨g, hg, hsrgb⟩
      have := List.find?_eq_none.mp hfind g hg
      simp [hsrgb] at this

/-- C9 witness: the example capability list (non-sRGB then sRGB format). -/
theorem C9_surface_format_choice_witness :
    exampleCaps.formats ≠ [] ∧
    ∃ f, chooseSurfaceFormat exampleCaps.formats = some f ∧
      f ∈ exampleCaps.formats ∧
      ((∃ g ∈ exampleCaps.formats, g.is_srgb) → f.is_srgb) ∧
      ((∀ g ∈ exampleCaps.formats, ¬ g.is_srgb) →
        exampleCaps.formats.head? = some f) :=
  ⟨by decide, C9_surface_format_choice exampleCaps.formats (by decide)⟩

/-- C10: whenever `render` returns normally (does not abort), the
returned `Result` is `Ok(())`: no `Err(SurfaceError)` value is ever
produced, from any state and any acquisition outcome. -/
theorem C10_normal_return_is_ok (s : State) (acq : Except SurfaceError Unit)
    (r : RenderResult) (h : (render s acq).2 = RunResult.ret r) :
    r.result = Except.ok () := by
  cases acq with
  | error e => exact absurd h (by simp [render])
  | ok u =>
    rw [render] at h
    injection h with h'
    rw [← h']

/-- C10 witness: the normal return at the example state is `Ok(())`. -/
theorem C10_normal_return_is_ok_witness :
    (render exampleState (Except.ok ())).2 =
      RunResult.ret
        { trace := renderTrace exampleState, result := Except.ok () } ∧
    ({ trace := renderTrace exampleState,
       result := Except.ok () } : RenderResult).result = Except.ok () :=
  ⟨rfl, C10_normal_return_is_ok exampleState (Except.ok ())
    { trace := renderTrace exampleState, result := Except.ok () } rfl⟩
